import Mathlib

set_option linter.unusedVariables false

/-!
Shallow embedding of the emission-calculation core of `app.py`
(repository PotencialMetano).

Conventions of the embedding:
* numpy float arrays become `List ℚ` (for the purely rational pipelines:
  vermicomposting / thermophilic composting / GWP aggregation) or `List ℝ`
  (for the landfill pipeline, whose kernel uses `exp`);
* floating-point arithmetic is modelled as exact arithmetic on ℚ / ℝ;
* `scipy.signal.fftconvolve(x, w, mode='full')[:len(x)]` is modelled by its
  mathematical value, the full linear convolution truncated to `len(x)`;
* numpy 0-based array indices `i` correspond to the source's day `t = i + 1`.
-/

/-! ## Generic convolution engine (models `fftconvolve(..., 'full')[:n]`) -/

/-- Full linear convolution of two sequences, as computed (in exact
arithmetic) by `scipy.signal.fftconvolve(x, w, mode='full')`: the output has
length `x.length + w.length - 1` and entry `d` is `∑ i, x[d-i] * w[i]`
(out-of-range factors read as 0). -/
def fftconvolve_full {α : Type} [Semiring α] (x w : List α) : List α :=
  (List.range (x.length + w.length - 1)).map
    (fun d => ∑ i ∈ Finset.range (d + 1), x.getD (d - i) 0 * w.getD i 0)

/-- Embedding of `fftconvolve(x, w, mode='full')[:len(x)]`, the form used by
all continuous-mode computations in `app.py`. -/
def fftconvolve_trunc {α : Type} [Semiring α] (x w : List α) : List α :=
  (fftconvolve_full x w).take x.length

/-- Modelled from the spec (§4.3): the reference convolution
`e[d] = ∑ i in [0, min(d, m-1)], p[d-i] * w[i]` for `d = 0 .. n-1`.
This definition follows the spec's words and is compared against
`fftconvolve_trunc`, which is the source's implementation. -/
def conv_reference {α : Type} [Semiring α] (p w : List α) : List α :=
  (List.range p.length).map
    (fun d => ∑ i ∈ Finset.range (min (d + 1) w.length), p.getD (d - i) 0 * w.getD i 0)

/-! ## Vermicomposting and thermophilic composting (`app.py`, rational pipeline) -/

/-- Fifty-day vermicompost CH₄ release-profile literals (Yang et al. 2017),
the array `perfil_ch4` of `calcular_emissoes_vermicompostagem`
(`app.py` lines 171-182; the same literals recur at lines 285-296). -/
def perfil_vermi : List ℚ :=
  [0.02, 0.02, 0.02, 0.03, 0.03,
   0.04, 0.04, 0.05, 0.05, 0.06,
   0.07, 0.08, 0.09, 0.10, 0.09,
   0.08, 0.07, 0.06, 0.05, 0.04,
   0.03, 0.02, 0.02, 0.01, 0.01,
   0.01, 0.01, 0.01, 0.01, 0.01,
   0.005, 0.005, 0.005, 0.005, 0.005,
   0.005, 0.005, 0.005, 0.005, 0.005,
   0.002, 0.002, 0.002, 0.002, 0.002,
   0.001, 0.001, 0.001, 0.001, 0.001]

/-- Fifty-day thermophilic-compost CH₄ release-profile literals, the array
`perfil_ch4` of `calcular_emissoes_compostagem` (`app.py` lines 205-216;
the same literals recur at lines 326-337). -/
def perfil_compost : List ℚ :=
  [0.01, 0.02, 0.03, 0.05, 0.08,
   0.12, 0.15, 0.18, 0.20, 0.18,
   0.15, 0.12, 0.10, 0.08, 0.06,
   0.05, 0.04, 0.03, 0.02, 0.02,
   0.01, 0.01, 0.01, 0.01, 0.01,
   0.005, 0.005, 0.005, 0.005, 0.005,
   0.002, 0.002, 0.002, 0.002, 0.002,
   0.001, 0.001, 0.001, 0.001, 0.001,
   0.001, 0.001, 0.001, 0.001, 0.001,
   0.001, 0.001, 0.001, 0.001, 0.001]

/-- Per-batch vermicompost CH₄ potential
`residuos_kg * (TOC * CH4_C_FRAC * (16/12) * fracao_ms)` with `TOC = 0.436`,
`CH4_C_FRAC = 0.13 / 100`, `fracao_ms = 1 - umidade`
(`app.py` lines 163-168, repeated at 277-282). -/
def potencial_vermi_lote (residuos_kg umidade : ℚ) : ℚ :=
  let TOC : ℚ := 0.436
  let CH4_C_FRAC : ℚ := 0.13 / 100
  let fracao_ms : ℚ := 1 - umidade
  residuos_kg * (TOC * CH4_C_FRAC * (16 / 12) * fracao_ms)

/-- Per-batch thermophilic-compost CH₄ potential, with `CH4_C_FRAC = 0.006`
(`app.py` lines 197-202, repeated at 318-323). -/
def potencial_compost_lote (residuos_kg umidade : ℚ) : ℚ :=
  let TOC : ℚ := 0.436
  let CH4_C_FRAC : ℚ := 0.006
  let fracao_ms : ℚ := 1 - umidade
  residuos_kg * (TOC * CH4_C_FRAC * (16 / 12) * fracao_ms)

/-- Embedding of `calcular_emissoes_vermicompostagem(residuos_kg, umidade, dias)`
(`app.py` lines 158-190). Returns `(emissoes_CH4, ch4_total_por_lote)`.
The `dias` parameter is accepted (default 50 in the source) but, exactly as in
the source body, never read. -/
def calcular_emissoes_vermicompostagem (residuos_kg umidade : ℚ) (dias : ℕ) :
    List ℚ × ℚ :=
  let ch4_total_por_lote := potencial_vermi_lote residuos_kg umidade
  let perfil_norm := perfil_vermi.map (· / perfil_vermi.sum)
  (perfil_norm.map (ch4_total_por_lote * ·), ch4_total_por_lote)

/-- Embedding of `calcular_emissoes_compostagem(residuos_kg, umidade, dias)`
(`app.py` lines 192-224). -/
def calcular_emissoes_compostagem (residuos_kg umidade : ℚ) (dias : ℕ) :
    List ℚ × ℚ :=
  let ch4_total_por_lote := potencial_compost_lote residuos_kg umidade
  let perfil_norm := perfil_compost.map (· / perfil_compost.sum)
  (perfil_norm.map (ch4_total_por_lote * ·), ch4_total_por_lote)

/-- Body of `calcular_emissoes_vermicompostagem_continuo` (`app.py` lines
270-309) with the horizon in days (`dias = anos * 365` in the source) made
explicit. Returns `(emissoes_CH4, potencial_CH4_total)` where the second
component is `np.sum(emissoes_CH4)`. -/
def vermi_continuo_dias (residuos_kg_dia umidade : ℚ) (dias : ℕ) :
    List ℚ × ℚ :=
  let ch4_total_por_lote := potencial_vermi_lote residuos_kg_dia umidade
  let perfil_norm := perfil_vermi.map (· / perfil_vermi.sum)
  let entradas_diarias : List ℚ := List.replicate dias 1
  let emissoes_CH4 :=
    (fftconvolve_trunc entradas_diarias perfil_norm).map (· * ch4_total_por_lote)
  (emissoes_CH4, emissoes_CH4.sum)

/-- Embedding of `calcular_emissoes_vermicompostagem_continuo(residuos_kg_dia,
umidade, anos)` (`app.py` lines 270-309), horizon `dias = anos * 365`. -/
def calcular_emissoes_vermicompostagem_continuo (residuos_kg_dia umidade : ℚ)
    (anos : ℕ) : List ℚ × ℚ :=
  vermi_continuo_dias residuos_kg_dia umidade (anos * 365)

/-! ## CO₂-equivalent conversion (`app.py` lines 856-863 and 1253-1264) -/

/-- The GWP constant for CH₄ used by `app.py` (lines 857 and 1254):
`GWP_CH4 = 27.9  # kg CO₂eq por kg CH₄ (IPCC AR6)` — the 100-year value. -/
def GWP_CH4 : ℚ := 27.9

/-- Embedding of `total_evitado_*_kg = (total_aterro - total_cenario) * GWP_CH4`
(`app.py` lines 859, 862, 1257, 1262). -/
def total_evitado_kg (total_aterro total_cenario : ℚ) : ℚ :=
  (total_aterro - total_cenario) * GWP_CH4

/-- Embedding of `total_evitado_*_tco2eq = total_evitado_*_kg / 1000`
(`app.py` lines 860, 863, 1258, 1263). -/
def total_evitado_tco2eq (total_aterro total_cenario : ℚ) : ℚ :=
  total_evitado_kg total_aterro total_cenario / 1000

/-! ## Landfill CH₄ (`app.py`, real pipeline with `exp`) -/

/-- Temperature-dependent degradable fraction `DOCf = 0.0147 * temperatura + 0.28`
(`app.py` lines 135 and 245). -/
noncomputable def DOCf_calc (temperatura : ℝ) : ℝ := 0.0147 * temperatura + 0.28

/-- Landfill CH₄ potential per kg of waste,
`DOC * DOCf * MCF * F * (16/12) * (1 - Ri) * (1 - OX)` with the IPCC-2006
constants of `app.py` lines 127-138 (identical at lines 237-248). -/
noncomputable def potencial_CH4_por_kg (temperatura : ℝ) : ℝ :=
  let DOC : ℝ := 0.15
  let MCF : ℝ := 1.0
  let F : ℝ := 0.5
  let OX : ℝ := 0.1
  let Ri : ℝ := 0.0
  DOC * DOCf_calc temperatura * MCF * F * (16 / 12) * (1 - Ri) * (1 - OX)

/-- First-order-decay landfill kernel
`exp(-k*(t-1)/365) - exp(-k*t/365)` for `t = 1 .. dias`, `k = 0.06`
(`app.py` lines 144-148 and 254-258); index `i` stands for day `t = i + 1`. -/
noncomputable def kernel_aterro (dias : ℕ) : List ℝ :=
  (List.range dias).map
    (fun i : ℕ =>
      Real.exp (-(0.06 * (i : ℝ)) / 365) - Real.exp (-(0.06 * ((i : ℝ) + 1)) / 365))

/-- Embedding of `calcular_potencial_metano_aterro(residuos_kg, umidade,
temperatura, dias)` (`app.py` lines 120-156). The kernel is renormalized to
sum 1 (line 151) before scaling by the total potential. Returns
`(emissoes_CH4, potencial_CH4_total, DOCf)`. -/
noncomputable def calcular_potencial_metano_aterro
    (residuos_kg umidade temperatura : ℝ) (dias : ℕ) : List ℝ × ℝ × ℝ :=
  let potencial_CH4_total := residuos_kg * potencial_CH4_por_kg temperatura
  let kernel_ch4 := kernel_aterro dias
  let kernel_norm := kernel_ch4.map (· / kernel_ch4.sum)
  let emissoes_CH4 := kernel_norm.map (potencial_CH4_total * ·)
  (emissoes_CH4, potencial_CH4_total, DOCf_calc temperatura)

/-- Body of `calcular_emissoes_aterro_continuo` (`app.py` lines 230-268) with
the horizon in days (`dias = anos * 365` in the source) made explicit. The
kernel is NOT renormalized here. Returns
`(emissoes_CH4, potencial_CH4_total, DOCf)` with
`potencial_CH4_total = np.sum(emissoes_CH4)`. -/
noncomputable def aterro_continuo_dias
    (residuos_kg_dia umidade temperatura : ℝ) (dias : ℕ) : List ℝ × ℝ × ℝ :=
  let potencial_CH4_diario := residuos_kg_dia * potencial_CH4_por_kg temperatura
  let kernel_ch4 := kernel_aterro dias
  let entradas_diarias : List ℝ := List.replicate dias 1
  let emissoes_CH4 :=
    (fftconvolve_trunc entradas_diarias kernel_ch4).map (· * potencial_CH4_diario)
  (emissoes_CH4, emissoes_CH4.sum, DOCf_calc temperatura)

/-- Embedding of `calcular_emissoes_aterro_continuo(residuos_kg_dia, umidade,
temperatura, anos)` (`app.py` lines 230-268), horizon `dias = anos * 365`. -/
noncomputable def calcular_emissoes_aterro_continuo
    (residuos_kg_dia umidade temperatura : ℝ) (anos : ℕ) : List ℝ × ℝ × ℝ :=
  aterro_continuo_dias residuos_kg_dia umidade temperatura (anos * 365)

/-! ## Generic helper lemmas -/

theorem list_sum_map_range {M : Type} [AddCommMonoid M] (f : ℕ → M) (n : ℕ) :
    ((List.range n).map f).sum = ∑ i ∈ Finset.range n, f i := rfl

theorem getD_map_range {M : Type} [Zero M] (f : ℕ → M) (n d : ℕ) (hd : d < n) :
    ((List.range n).map f).getD d 0 = f d := by
  rw [List.getD_eq_getElem?_getD, List.getElem?_map, List.getElem?_range hd]
  rfl

theorem getD_replicate_of_lt {M : Type} [Zero M] (a : M) (n d : ℕ) (hd : d < n) :
    (List.replicate n a).getD d 0 = a := by
  rw [List.getD_eq_getElem?_getD, List.getElem?_replicate_of_lt hd]
  rfl

theorem getD_map_mul_right {α : Type} [MulZeroClass α] (l : List α) (c : α) (d : ℕ) :
    (l.map (· * c)).getD d 0 = l.getD d 0 * c := by
  rw [List.getD_eq_getElem?_getD, List.getD_eq_getElem?_getD, List.getElem?_map]
  cases l[d]? <;> simp

theorem sum_map_div {α : Type} [DivisionRing α] (l : List α) (s : α) :
    (l.map (· / s)).sum = l.sum / s := by
  induction l with
  | nil => simp
  | cons a t ih => simp [ih, add_div]

theorem sum_map_mul_const_left {α : Type} [NonUnitalNonAssocSemiring α]
    (l : List α) (c : α) : (l.map (c * ·)).sum = c * l.sum := by
  induction l with
  | nil => simp
  | cons a t ih => simp [ih, mul_add]

theorem sum_map_mul_const_right {α : Type} [NonUnitalNonAssocSemiring α]
    (l : List α) (c : α) : (l.map (· * c)).sum = l.sum * c := by
  induction l with
  | nil => simp
  | cons a t ih => simp [ih, add_mul]

theorem sum_getD_range_length {M : Type} [AddCommMonoid M] (l : List M) :
    ∑ i ∈ Finset.range l.length, l.getD i 0 = l.sum := by
  induction l with
  | nil => simp
  | cons a t ih =>
    rw [List.length_cons, Finset.sum_range_succ']
    simp only [List.getD_cons_succ, List.getD_cons_zero, List.sum_cons]
    rw [ih, add_comm]

theorem sum_getD_range_of_length_le {M : Type} [AddCommMonoid M] (l : List M)
    (k : ℕ) (hk : l.length ≤ k) :
    ∑ i ∈ Finset.range k, l.getD i 0 = l.sum := by
  rw [← sum_getD_range_length l]
  symm
  apply Finset.sum_subset (Finset.range_subset.2 hk)
  intro i _ hi
  rw [Finset.mem_range, not_lt] at hi
  exact List.getD_eq_default l 0 hi

theorem getD_nonneg {α : Type} [Zero α] [Preorder α] (l : List α)
    (hl : ∀ x ∈ l, 0 ≤ x) (i : ℕ) : 0 ≤ l.getD i 0 := by
  rcases lt_or_ge i l.length with h | h
  · rw [List.getD_eq_getElem l 0 h]
    exact hl _ (List.getElem_mem h)
  · rw [List.getD_eq_default l 0 h]

theorem sum_getD_range_le_sum (l : List ℚ) (hl : ∀ x ∈ l, 0 ≤ x) (k : ℕ) :
    ∑ i ∈ Finset.range k, l.getD i 0 ≤ l.sum := by
  have h1 : ∑ i ∈ Finset.range k, l.getD i 0
      ≤ ∑ i ∈ Finset.range (max k l.length), l.getD i 0 := by
    apply Finset.sum_le_sum_of_subset_of_nonneg
      (Finset.range_subset.2 (le_max_left _ _))
    intro i _ _
    exact getD_nonneg l hl i
  rw [sum_getD_range_of_length_le l _ (le_max_right _ _)] at h1
  exact h1

/-! ## Convolution-engine lemmas -/

theorem fftconvolve_trunc_eq {α : Type} [Semiring α] (x w : List α)
    (hw : 1 ≤ w.length) :
    fftconvolve_trunc x w = (List.range x.length).map
      (fun d => ∑ i ∈ Finset.range (d + 1), x.getD (d - i) 0 * w.getD i 0) := by
  unfold fftconvolve_trunc fftconvolve_full
  rw [← List.map_take, List.take_range]
  congr 2
  omega

theorem fftconvolve_trunc_length {α : Type} [Semiring α] (x w : List α)
    (hw : 1 ≤ w.length) : (fftconvolve_trunc x w).length = x.length := by
  rw [fftconvolve_trunc_eq x w hw, List.length_map, List.length_range]

theorem fftconvolve_trunc_getD {α : Type} [Semiring α] (x w : List α)
    (hw : 1 ≤ w.length) (d : ℕ) (hd : d < x.length) :
    (fftconvolve_trunc x w).getD d 0
      = ∑ i ∈ Finset.range (d + 1), x.getD (d - i) 0 * w.getD i 0 := by
  rw [fftconvolve_trunc_eq x w hw, getD_map_range _ _ _ hd]

theorem fftconvolve_trunc_eq_reference {α : Type} [Semiring α] (x w : List α)
    (hw : 1 ≤ w.length) : fftconvolve_trunc x w = conv_reference x w := by
  rw [fftconvolve_trunc_eq x w hw]
  unfold conv_reference
  apply List.map_congr_left
  intro d _
  symm
  apply Finset.sum_subset
  · exact Finset.range_subset.2 (min_le_left _ _)
  · intro i hi hni
    rw [Finset.mem_range] at hi hni
    push_neg at hni
    have hwi : w.length ≤ i := by omega
    rw [List.getD_eq_default w 0 hwi, mul_zero]

/-! ## Profile lemmas for the composting scenarios -/

theorem perfil_vermi_sum : perfil_vermi.sum = 1.295 := by
  norm_num [perfil_vermi]

theorem perfil_compost_sum : perfil_compost.sum = 1.79 := by
  norm_num [perfil_compost]

theorem perfil_vermi_norm_sum : (perfil_vermi.map (· / perfil_vermi.sum)).sum = 1 := by
  rw [sum_map_div, perfil_vermi_sum]
  norm_num

theorem perfil_compost_norm_sum :
    (perfil_compost.map (· / perfil_compost.sum)).sum = 1 := by
  rw [sum_map_div, perfil_compost_sum]
  norm_num

theorem perfil_vermi_nonneg : ∀ x ∈ perfil_vermi, 0 ≤ x := by
  intro x hx
  fin_cases hx <;> norm_num

theorem perfil_vermi_norm_nonneg :
    ∀ x ∈ perfil_vermi.map (· / perfil_vermi.sum), 0 ≤ x := by
  intro x hx
  rw [List.mem_map] at hx
  obtain ⟨y, hy, rfl⟩ := hx
  apply div_nonneg (perfil_vermi_nonneg y hy)
  rw [perfil_vermi_sum]
  norm_num

theorem perfil_vermi_norm_length :
    (perfil_vermi.map (· / perfil_vermi.sum)).length = 50 := by
  rw [List.length_map]
  rfl

theorem vermi_batch_sum (r u : ℚ) (dias : ℕ) :
    (calcular_emissoes_vermicompostagem r u dias).1.sum = potencial_vermi_lote r u := by
  show ((perfil_vermi.map (· / perfil_vermi.sum)).map
    (potencial_vermi_lote r u * ·)).sum = _
  rw [sum_map_mul_const_left, perfil_vermi_norm_sum, mul_one]

theorem compost_batch_sum (r u : ℚ) (dias : ℕ) :
    (calcular_emissoes_compostagem r u dias).1.sum = potencial_compost_lote r u := by
  show ((perfil_compost.map (· / perfil_compost.sum)).map
    (potencial_compost_lote r u * ·)).sum = _
  rw [sum_map_mul_const_left, perfil_compost_norm_sum, mul_one]

/-! ## Landfill kernel lemmas -/

theorem kernel_aterro_sum (dias : ℕ) :
    (kernel_aterro dias).sum = 1 - Real.exp (-(0.06 * dias) / 365) := by
  unfold kernel_aterro
  rw [list_sum_map_range]
  have h := Finset.sum_range_sub' (fun i : ℕ => Real.exp (-(0.06 * (i : ℝ)) / 365)) dias
  push_cast at h
  rw [h]
  norm_num

theorem kernel_aterro_sum_pos (dias : ℕ) (hd : 1 ≤ dias) :
    0 < (kernel_aterro dias).sum := by
  rw [kernel_aterro_sum]
  have h1 : Real.exp (-(0.06 * dias) / 365) < 1 := by
    apply Real.exp_lt_one_iff.mpr
    have : (1 : ℝ) ≤ dias := by exact_mod_cast hd
    nlinarith
  linarith

theorem aterro_batch_sum (r u T : ℝ) (dias : ℕ) (hd : 1 ≤ dias) :
    (calcular_potencial_metano_aterro r u T dias).1.sum
      = (calcular_potencial_metano_aterro r u T dias).2.1 := by
  show (((kernel_aterro dias).map (· / (kernel_aterro dias).sum)).map
      (r * potencial_CH4_por_kg T * ·)).sum = r * potencial_CH4_por_kg T
  rw [sum_map_mul_const_left, sum_map_div,
    div_self (ne_of_gt (kernel_aterro_sum_pos dias hd)), mul_one]

theorem aterro_continuo_day (r u T : ℝ) (dias d : ℕ) (hd : d < dias) :
    (aterro_continuo_dias r u T dias).1.getD d 0
      = (1 - Real.exp (-(0.06 * (d + 1)) / 365)) * (r * potencial_CH4_por_kg T) := by
  show ((fftconvolve_trunc (List.replicate dias (1 : ℝ)) (kernel_aterro dias)).map
      (· * (r * potencial_CH4_por_kg T))).getD d 0 = _
  rw [getD_map_mul_right]
  have hw : 1 ≤ (kernel_aterro dias).length := by
    unfold kernel_aterro
    rw [List.length_map, List.length_range]
    omega
  have hx : d < (List.replicate dias (1 : ℝ)).length := by
    rw [List.length_replicate]
    exact hd
  rw [fftconvolve_trunc_getD _ _ hw d hx]
  congr 1
  have hterm : ∀ i ∈ Finset.range (d + 1),
      (List.replicate dias (1 : ℝ)).getD (d - i) 0 * (kernel_aterro dias).getD i 0
        = Real.exp (-(0.06 * (i : ℝ)) / 365) - Real.exp (-(0.06 * ((i : ℝ) + 1)) / 365) := by
    intro i hi
    rw [Finset.mem_range] at hi
    have hdi : d - i < dias := by omega
    have hii : i < dias := by omega
    rw [getD_replicate_of_lt _ _ _ hdi, one_mul]
    unfold kernel_aterro
    rw [getD_map_range _ _ _ hii]
  rw [Finset.sum_congr rfl hterm]
  have h := Finset.sum_range_sub' (fun i : ℕ => Real.exp (-(0.06 * (i : ℝ)) / 365)) (d + 1)
  push_cast at h
  rw [h]
  norm_num

/-! ## Vermicompost continuous-mode lemmas -/

theorem potencial_vermi_lote_nonneg (r u : ℚ) (hr : 0 ≤ r) (hu : u ≤ 1) :
    0 ≤ potencial_vermi_lote r u := by
  show 0 ≤ r * (0.436 * (0.13 / 100) * (16 / 12) * (1 - u))
  have h1 : (0 : ℚ) ≤ 1 - u := by linarith
  have h2 : (0 : ℚ) ≤ 0.436 * (0.13 / 100) * (16 / 12) := by norm_num
  exact mul_nonneg hr (mul_nonneg h2 h1)

theorem vermi_continuo_day (r u : ℚ) (dias d : ℕ) (h49 : 49 ≤ d) (hd : d < dias) :
    (vermi_continuo_dias r u dias).1.getD d 0 = potencial_vermi_lote r u := by
  show ((fftconvolve_trunc (List.replicate dias (1 : ℚ))
      (perfil_vermi.map (· / perfil_vermi.sum))).map
      (· * potencial_vermi_lote r u)).getD d 0 = _
  rw [getD_map_mul_right]
  have hw : 1 ≤ (perfil_vermi.map (· / perfil_vermi.sum)).length := by
    rw [perfil_vermi_norm_length]
    omega
  have hx : d < (List.replicate dias (1 : ℚ)).length := by
    rw [List.length_replicate]
    exact hd
  rw [fftconvolve_trunc_getD _ _ hw d hx]
  have hterm : ∀ i ∈ Finset.range (d + 1),
      (List.replicate dias (1 : ℚ)).getD (d - i) 0
        * (perfil_vermi.map (· / perfil_vermi.sum)).getD i 0
      = (perfil_vermi.map (· / perfil_vermi.sum)).getD i 0 := by
    intro i hi
    rw [Finset.mem_range] at hi
    rw [getD_replicate_of_lt _ _ _ (by omega), one_mul]
  rw [Finset.sum_congr rfl hterm,
    sum_getD_range_of_length_le _ _ (by rw [perfil_vermi_norm_length]; omega),
    perfil_vermi_norm_sum, one_mul]

theorem vermi_conv_sum_bounds (dias : ℕ) (hd : 50 ≤ dias) :
    ((dias : ℚ) - 49)
        ≤ (fftconvolve_trunc (List.replicate dias (1 : ℚ))
            (perfil_vermi.map (· / perfil_vermi.sum))).sum
    ∧ (fftconvolve_trunc (List.replicate dias (1 : ℚ))
            (perfil_vermi.map (· / perfil_vermi.sum))).sum ≤ (dias : ℚ) := by
  have hw : 1 ≤ (perfil_vermi.map (· / perfil_vermi.sum)).length := by
    rw [perfil_vermi_norm_length]
    omega
  rw [fftconvolve_trunc_eq _ _ hw, List.length_replicate, list_sum_map_range]
  have hterm : ∀ d ∈ Finset.range dias,
      (∑ i ∈ Finset.range (d + 1), (List.replicate dias (1 : ℚ)).getD (d - i) 0
          * (perfil_vermi.map (· / perfil_vermi.sum)).getD i 0)
      = ∑ i ∈ Finset.range (d + 1),
          (perfil_vermi.map (· / perfil_vermi.sum)).getD i 0 := by
    intro d hdm
    rw [Finset.mem_range] at hdm
    apply Finset.sum_congr rfl
    intro i hi
    rw [Finset.mem_range] at hi
    rw [getD_replicate_of_lt _ _ _ (by omega), one_mul]
  rw [Finset.sum_congr rfl hterm]
  have hS0 : ∀ k : ℕ, 0 ≤ ∑ i ∈ Finset.range k,
      (perfil_vermi.map (· / perfil_vermi.sum)).getD i 0 := by
    intro k
    apply Finset.sum_nonneg
    intro i _
    exact getD_nonneg _ perfil_vermi_norm_nonneg i
  have hS1 : ∀ k : ℕ, (∑ i ∈ Finset.range k,
      (perfil_vermi.map (· / perfil_vermi.sum)).getD i 0) ≤ 1 := by
    intro k
    have := sum_getD_range_le_sum _ perfil_vermi_norm_nonneg k
    rw [perfil_vermi_norm_sum] at this
    exact this
  have hSfull : ∀ k : ℕ, 50 ≤ k → (∑ i ∈ Finset.range k,
      (perfil_vermi.map (· / perfil_vermi.sum)).getD i 0) = 1 := by
    intro k hk
    rw [sum_getD_range_of_length_le _ _ (by rw [perfil_vermi_norm_length]; omega),
      perfil_vermi_norm_sum]
  constructor
  · have hsub : Finset.Ico 49 dias ⊆ Finset.range dias := by
      rw [Finset.range_eq_Ico]
      exact Finset.Ico_subset_Ico (Nat.zero_le _) le_rfl
    have hlow : ∑ d ∈ Finset.Ico 49 dias, (∑ i ∈ Finset.range (d + 1),
          (perfil_vermi.map (· / perfil_vermi.sum)).getD i 0)
        ≤ ∑ d ∈ Finset.range dias, (∑ i ∈ Finset.range (d + 1),
          (perfil_vermi.map (· / perfil_vermi.sum)).getD i 0) := by
      apply Finset.sum_le_sum_of_subset_of_nonneg hsub
      intro d _ _
      exact hS0 (d + 1)
    have hico : ∑ d ∈ Finset.Ico 49 dias, (∑ i ∈ Finset.range (d + 1),
        (perfil_vermi.map (· / perfil_vermi.sum)).getD i 0) = ((dias - 49 : ℕ) : ℚ) := by
      have h1 : ∑ d ∈ Finset.Ico 49 dias, (∑ i ∈ Finset.range (d + 1),
          (perfil_vermi.map (· / perfil_vermi.sum)).getD i 0)
          = ∑ d ∈ Finset.Ico 49 dias, (1 : ℚ) := by
        apply Finset.sum_congr rfl
        intro d hdm
        rw [Finset.mem_Ico] at hdm
        exact hSfull (d + 1) (by omega)
      rw [h1, Finset.sum_const, Nat.card_Ico, nsmul_eq_mul, mul_one]
    rw [hico] at hlow
    have hcast : ((dias - 49 : ℕ) : ℚ) = (dias : ℚ) - 49 := by
      have h49d : (49 : ℕ) ≤ dias := by omega
      push_cast [Nat.cast_sub h49d]
      ring
    rw [hcast] at hlow
    exact hlow
  · have hup : ∑ d ∈ Finset.range dias, (∑ i ∈ Finset.range (d + 1),
        (perfil_vermi.map (· / perfil_vermi.sum)).getD i 0)
      ≤ ∑ d ∈ Finset.range dias, (1 : ℚ) := by
      apply Finset.sum_le_sum
      intro d _
      exact hS1 (d + 1)
    rw [Finset.sum_const, Finset.card_range, nsmul_eq_mul, mul_one] at hup
    exact hup

theorem vermi_continuo_sum_eq (r u : ℚ) (dias : ℕ) :
    (vermi_continuo_dias r u dias).2
      = (fftconvolve_trunc (List.replicate dias (1 : ℚ))
          (perfil_vermi.map (· / perfil_vermi.sum))).sum * potencial_vermi_lote r u := by
  show ((fftconvolve_trunc (List.replicate dias (1 : ℚ))
      (perfil_vermi.map (· / perfil_vermi.sum))).map
      (· * potencial_vermi_lote r u)).sum = _
  rw [sum_map_mul_const_right]

/-! ## Claim theorems -/

/-- Claim C1, counterexample: the batch landfill function
`calcular_potencial_metano_aterro` renormalizes its kernel (`app.py` line 151),
so for a 100 kg batch at 25 °C over a 365-day horizon the emitted series sums
to the full total potential (which is nonzero), not to
`potential * (1 - exp(-0.06))` as the claim asserts. -/
theorem C1_counterexample :
    (calcular_potencial_metano_aterro 100 0.85 25 365).1.sum
      = (calcular_potencial_metano_aterro 100 0.85 25 365).2.1
    ∧ (calcular_potencial_metano_aterro 100 0.85 25 365).2.1 ≠ 0
    ∧ (calcular_potencial_metano_aterro 100 0.85 25 365).1.sum
      ≠ (calcular_potencial_metano_aterro 100 0.85 25 365).2.1
          * (1 - Real.exp (-0.06)) := by
  have hsum := aterro_batch_sum 100 0.85 25 365 (by norm_num)
  have htot : (calcular_potencial_metano_aterro 100 0.85 25 365).2.1 = 5.8275 := by
    show (100 : ℝ) * potencial_CH4_por_kg 25 = 5.8275
    unfold potencial_CH4_por_kg DOCf_calc
    norm_num
  refine ⟨hsum, ?_, ?_⟩
  · rw [htot]
    norm_num
  · rw [hsum, htot]
    have hexp : 0 < Real.exp (-0.06) := Real.exp_pos _
    intro h
    nlinarith [hexp, h]

/-- Claim C1, amended: in the continuous landfill function the kernel is used
without renormalization — the kernel over an `n`-day horizon sums to
`1 - exp(-0.06*n/365)` and the day-`d` emission equals the daily potential
times `1 - exp(-0.06*(d+1)/365)` — while the batch function renormalizes its
kernel, so the batch series sums to 100% of the total potential for every
horizon `n ≥ 1`. -/
theorem C1_amended (r u T : ℝ) (n dias d anos : ℕ) (hn : 1 ≤ n) (hd : d < dias) :
    (calcular_potencial_metano_aterro r u T n).1.sum
      = (calcular_potencial_metano_aterro r u T n).2.1
    ∧ (kernel_aterro n).sum = 1 - Real.exp (-(0.06 * n) / 365)
    ∧ (aterro_continuo_dias r u T dias).1.getD d 0
        = (1 - Real.exp (-(0.06 * (d + 1)) / 365)) * (r * potencial_CH4_por_kg T)
    ∧ calcular_emissoes_aterro_continuo r u T anos
        = aterro_continuo_dias r u T (anos * 365) :=
  ⟨aterro_batch_sum r u T n hn, kernel_aterro_sum n,
   aterro_continuo_day r u T dias d hd, rfl⟩

/-- Witness for C1_amended at a concrete input (n = 365, d = 3, dias = 7300). -/
theorem C1_witness :
    (calcular_potencial_metano_aterro 100 0.85 25 365).1.sum
      = (calcular_potencial_metano_aterro 100 0.85 25 365).2.1 :=
  (C1_amended 100 0.85 25 365 7300 3 20 (by decide) (by decide)).1

/-- Claim C2: for every input and every kernel of length at least 1 the
truncated full convolution used by the continuous-mode functions has the
input's length and agrees exactly (in the exact-arithmetic model of the
floating-point FFT) with the reference direct summation
`e[d] = Σ p[d-i]·w[i]`, and the continuous vermicompost series is exactly
that engine applied to a constant daily input. -/
theorem C2_convolution_refinement {α : Type} [Semiring α] (x w : List α)
    (r u : ℚ) (anos : ℕ) (hw : 1 ≤ w.length) :
    (fftconvolve_trunc x w).length = x.length
    ∧ fftconvolve_trunc x w = conv_reference x w
    ∧ (calcular_emissoes_vermicompostagem_continuo r u anos).1
        = (fftconvolve_trunc (List.replicate (anos * 365) (1 : ℚ))
            (perfil_vermi.map (· / perfil_vermi.sum))).map
            (· * potencial_vermi_lote r u)
    ∧ (calcular_emissoes_vermicompostagem_continuo r u anos).1.length
        = anos * 365 := by
  refine ⟨fftconvolve_trunc_length x w hw, fftconvolve_trunc_eq_reference x w hw,
    rfl, ?_⟩
  show ((fftconvolve_trunc (List.replicate (anos * 365) (1 : ℚ))
      (perfil_vermi.map (· / perfil_vermi.sum))).map
      (· * potencial_vermi_lote r u)).length = anos * 365
  rw [List.length_map,
    fftconvolve_trunc_length _ _ (by rw [perfil_vermi_norm_length]; omega),
    List.length_replicate]

/-- Witness for C2_convolution_refinement at concrete lists. -/
theorem C2_witness :
    (fftconvolve_trunc [(1 : ℚ), 2, 3] [2, 3]).length = [(1 : ℚ), 2, 3].length :=
  (C2_convolution_refinement [(1 : ℚ), 2, 3] [2, 3] 1 0 0 (by decide)).1

/-- Claim C3: the landfill CH₄ potential per kg equals
`DOC·DOCf·MCF·F·(16/12)·(1-Ri)·(1-OX)` with `DOCf = 0.0147·T + 0.28`,
`DOC = 0.15`, `MCF = 1.0`, `F = 0.5`, `OX = 0.1`, `Ri = 0.0`; the returned
total is the waste mass times that value; for 100 kg at 25 °C the total is
5.8275 ≈ 5.83 kg. -/
theorem C3_landfill_potential (r u T : ℝ) (n : ℕ) :
    potencial_CH4_por_kg T
      = 0.15 * (0.0147 * T + 0.28) * 1.0 * 0.5 * (16 / 12) * (1 - 0.0) * (1 - 0.1)
    ∧ (calcular_potencial_metano_aterro r u T n).2.1 = r * potencial_CH4_por_kg T
    ∧ (calcular_potencial_metano_aterro r u T n).2.2 = 0.0147 * T + 0.28
    ∧ (calcular_potencial_metano_aterro 100 u 25 n).2.1 = 5.8275
    ∧ |(5.8275 : ℝ) - 5.83| < 0.01 := by
  refine ⟨rfl, rfl, rfl, ?_, by rw [abs_sub_lt_iff]; constructor <;> norm_num⟩
  show (100 : ℝ) * potencial_CH4_por_kg 25 = 5.8275
  unfold potencial_CH4_por_kg DOCf_calc
  norm_num

/-- Claim C4: the vermicompost CH₄ potential equals
`waste · 0.436 · 0.0013 · (16/12) · (1 - moisture)` and the
thermophilic-compost CH₄ potential equals
`waste · 0.436 · 0.006 · (16/12) · (1 - moisture)`. -/
theorem C4_compost_potentials (r u : ℚ) (dias : ℕ) :
    (calcular_emissoes_vermicompostagem r u dias).2
      = r * 0.436 * 0.0013 * (16 / 12) * (1 - u)
    ∧ (calcular_emissoes_compostagem r u dias).2
      = r * 0.436 * 0.006 * (16 / 12) * (1 - u) := by
  constructor
  · show r * (0.436 * (0.13 / 100) * (16 / 12) * (1 - u)) = _
    rw [show (0.13 : ℚ) / 100 = 0.0013 by norm_num]
    ring
  · show r * (0.436 * 0.006 * (16 / 12) * (1 - u)) = _
    ring

/-- Claim C5: the raw vermicompost profile literals sum to 1.295, both
empirical profiles are renormalized to sum exactly to 1 before use, and the
emitted batch totals therefore equal the computed potentials (scaled by the
corrected sum 1, not by the raw literal sum). -/
theorem C5_kernel_normalization (r u : ℚ) (dias : ℕ) :
    perfil_vermi.sum = 1.295
    ∧ (perfil_vermi.map (· / perfil_vermi.sum)).sum = 1
    ∧ (perfil_compost.map (· / perfil_compost.sum)).sum = 1
    ∧ (calcular_emissoes_vermicompostagem r u dias).1.sum
        = (calcular_emissoes_vermicompostagem r u dias).2
    ∧ (calcular_emissoes_compostagem r u dias).1.sum
        = (calcular_emissoes_compostagem r u dias).2 :=
  ⟨perfil_vermi_sum, perfil_vermi_norm_sum, perfil_compost_norm_sum,
   vermi_batch_sum r u dias, compost_batch_sum r u dias⟩

/-- Claim C6: for continuous vermicompost input with daily potential `P` over
`dias ≥ 50` days, every day `d ≥ 49` (0-based) emits exactly `P`, and the
cumulative total equals `dias·P` minus a deficit between 0 and `49·P`; the
20-year entry point runs exactly the 7300-day horizon. -/
theorem C6_continuous_steady_state (r u : ℚ) (dias : ℕ)
    (hr : 0 ≤ r) (hu : u ≤ 1) (hd : 50 ≤ dias) :
    (∀ d, 49 ≤ d → d < dias →
      (vermi_continuo_dias r u dias).1.getD d 0 = potencial_vermi_lote r u)
    ∧ 0 ≤ (dias : ℚ) * potencial_vermi_lote r u - (vermi_continuo_dias r u dias).2
    ∧ (dias : ℚ) * potencial_vermi_lote r u - (vermi_continuo_dias r u dias).2
        ≤ 49 * potencial_vermi_lote r u
    ∧ calcular_emissoes_vermicompostagem_continuo r u 20
        = vermi_continuo_dias r u 7300 := by
  have hP := potencial_vermi_lote_nonneg r u hr hu
  have hb := vermi_conv_sum_bounds dias hd
  have hs := vermi_continuo_sum_eq r u dias
  refine ⟨fun d h49 hdd => vermi_continuo_day r u dias d h49 hdd, ?_, ?_, rfl⟩
  · rw [hs]
    nlinarith [mul_nonneg (sub_nonneg.2 hb.2) hP]
  · rw [hs]
    have h1 : (dias : ℚ) - (fftconvolve_trunc (List.replicate dias (1 : ℚ))
        (perfil_vermi.map (· / perfil_vermi.sum))).sum ≤ 49 := by
      linarith [hb.1]
    nlinarith [mul_le_mul_of_nonneg_right h1 hP]

/-- Witness for C6_continuous_steady_state at r = 1, u = 0, dias = 50. -/
theorem C6_witness :
    0 ≤ ((50 : ℕ) : ℚ) * potencial_vermi_lote 1 0 - (vermi_continuo_dias 1 0 50).2 :=
  (C6_continuous_steady_state 1 0 50 zero_le_one zero_le_one (le_refl 50)).2.1

/-- Claim C7, counterexample: the code converts avoided CH₄ to CO₂eq with the
constant 27.9 (100-year GWP, IPCC AR6), not 79.7 as the claim states — at an
avoided total of 1 kg the reported CO₂eq is 27.9, not 79.7. -/
theorem C7_counterexample :
    total_evitado_kg 1 0 = 27.9 ∧ total_evitado_kg 1 0 ≠ 79.7 * (1 - 0) := by
  constructor <;> norm_num [total_evitado_kg, GWP_CH4]

/-- Claim C7, amended: conversion of an avoided-CH₄ total to CO₂-equivalent
multiplies by the constant `GWP_CH4 = 27.9` (the 100-year GWP of IPCC AR6),
then unit-scales by 1/1000 to tonnes: for every avoided total `a - v` the
reported CO₂eq is `27.9 * (a - v)` kg, i.e. `27.9 * (a - v) / 1000` t. -/
theorem C7_amended (a v : ℚ) :
    GWP_CH4 = 27.9
    ∧ total_evitado_kg a v = 27.9 * (a - v)
    ∧ total_evitado_tco2eq a v = 27.9 * (a - v) / 1000 := by
  refine ⟨rfl, ?_, ?_⟩
  · unfold total_evitado_kg GWP_CH4
    ring
  · unfold total_evitado_tco2eq total_evitado_kg GWP_CH4
    ring

/-- Claim C8, counterexample: at waste quantity 0 (which is ≤ 0) every scenario
function returns a numeric result — the landfill total potential and the
composting per-batch totals all evaluate to 0 — instead of signalling an
`InvalidInputError` (no such validation exists anywhere in `app.py`). -/
theorem C8_counterexample :
    (calcular_potencial_metano_aterro 0 0.85 25 365).2.1 = 0
    ∧ (calcular_emissoes_vermicompostagem 0 0.5 50).2 = 0
    ∧ (calcular_emissoes_compostagem 0 0.5 50).2 = 0 := by
  refine ⟨?_, ?_, ?_⟩
  · show (0 : ℝ) * potencial_CH4_por_kg 25 = 0
    exact zero_mul _
  · show (0 : ℚ) * (0.436 * (0.13 / 100) * (16 / 12) * (1 - 0.5)) = 0
    exact zero_mul _
  · show (0 : ℚ) * (0.436 * 0.006 * (16 / 12) * (1 - 0.5)) = 0
    exact zero_mul _

/-- Claim C8, amended: the scenario functions perform no input validation:
for every waste quantity ≤ 0 they still return numeric results, and because
the potential scales linearly in the waste mass the returned total potential
is then ≤ 0 (under the physical side conditions temperature ≥ 0 and
moisture ≤ 1). -/
theorem C8_amended (r T uR : ℝ) (rq uq : ℚ) (n dias : ℕ)
    (hr : r ≤ 0) (hT : 0 ≤ T) (hrq : rq ≤ 0) (huq : uq ≤ 1) :
    (calcular_potencial_metano_aterro r uR T n).2.1 ≤ 0
    ∧ (calcular_emissoes_vermicompostagem rq uq dias).2 ≤ 0
    ∧ (calcular_emissoes_compostagem rq uq dias).2 ≤ 0 := by
  refine ⟨?_, ?_, ?_⟩
  · show r * potencial_CH4_por_kg T ≤ 0
    have hD : 0 ≤ DOCf_calc T := by
      unfold DOCf_calc
      nlinarith
    have hK : 0 ≤ potencial_CH4_por_kg T := by
      show 0 ≤ 0.15 * DOCf_calc T * 1.0 * 0.5 * (16 / 12) * (1 - 0.0) * (1 - 0.1)
      nlinarith [hD]
    nlinarith [mul_nonneg (neg_nonneg.2 hr) hK]
  · show rq * (0.436 * (0.13 / 100) * (16 / 12) * (1 - uq)) ≤ 0
    have hK : (0 : ℚ) ≤ 0.436 * (0.13 / 100) * (16 / 12) * (1 - uq) := by
      have h1 : (0 : ℚ) ≤ 1 - uq := by linarith
      have h2 : (0 : ℚ) ≤ 0.436 * (0.13 / 100) * (16 / 12) := by norm_num
      exact mul_nonneg h2 h1
    nlinarith [mul_nonneg (neg_nonneg.2 hrq) hK]
  · show rq * (0.436 * 0.006 * (16 / 12) * (1 - uq)) ≤ 0
    have hK : (0 : ℚ) ≤ 0.436 * 0.006 * (16 / 12) * (1 - uq) := by
      have h1 : (0 : ℚ) ≤ 1 - uq := by linarith
      have h2 : (0 : ℚ) ≤ 0.436 * 0.006 * (16 / 12) := by norm_num
      exact mul_nonneg h2 h1
    nlinarith [mul_nonneg (neg_nonneg.2 hrq) hK]

/-- Witness for C8_amended at waste 0, temperature 0, moisture 1. -/
theorem C8_witness :
    (calcular_potencial_metano_aterro 0 0.85 0 365).2.1 ≤ 0 :=
  (C8_amended 0 0 0.85 0 1 365 50 (le_refl 0) (le_refl 0) (le_refl 0) (le_refl 1)).1

/-- Claim C9: the landfill CH₄ functions do not depend on their `umidade`
argument — two calls differing only in moisture return identical series,
total potential, and DOCf. -/
theorem C9_moisture_noninterference (r T : ℝ) (u1 u2 : ℝ) (n anos : ℕ) :
    calcular_potencial_metano_aterro r u1 T n = calcular_potencial_metano_aterro r u2 T n
    ∧ calcular_emissoes_aterro_continuo r u1 T anos
        = calcular_emissoes_aterro_continuo r u2 T anos :=
  ⟨rfl, rfl⟩

/-- Claim C10: the batch vermicompost and thermophilic-compost functions
ignore `dias` — for every value of `dias` the returned series has exactly 50
entries and sums to the per-batch potential, and the returned length equals
`min 50 dias` only when `dias ≥ 50`. -/
theorem C10_batch_length (r u : ℚ) (dias : ℕ) :
    (calcular_emissoes_vermicompostagem r u dias).1.length = 50
    ∧ (calcular_emissoes_vermicompostagem r u dias).1.sum
        = (calcular_emissoes_vermicompostagem r u dias).2
    ∧ (calcular_emissoes_compostagem r u dias).1.length = 50
    ∧ (calcular_emissoes_compostagem r u dias).1.sum
        = (calcular_emissoes_compostagem r u dias).2
    ∧ ((calcular_emissoes_vermicompostagem r u dias).1.length = min 50 dias
        ↔ 50 ≤ dias) := by
  refine ⟨rfl, vermi_batch_sum r u dias, rfl, compost_batch_sum r u dias, ?_⟩
  have hlen : (calcular_emissoes_vermicompostagem r u dias).1.length = 50 := rfl
  rw [hlen]
  omega
